import Mathlib

/-
Verification of the context-isolation layer of the any-agent repository
(src/any_agent/core/context_aware_wrapper.py), as a shallow embedding.

Modelling conventions:
- Python object identity is modelled by natural-number object ids. A state
  carries a counter of the next unused id, so freshly constructed agent
  instances receive ids distinct from every live object.
- A Python call that may raise is modelled as Except: Except.ok is a normal
  return, Except.error a propagated exception.
- Optional string arguments are Option String; Python truthiness of such a
  value (None and the empty string are falsy) is the function truthyStr.
- The underlying agent call is an uninterpreted parameter. For the
  per-context wrapper it takes the object id of the invoked agent instance
  and the message; for the session-managed wrapper it takes the value of the
  session field visible during the call and the message, which captures that
  the behaviour of the wrapped agent may depend on the session it sees.
-/

set_option autoImplicit false

/-- Python truthiness of an Optional string: None and the empty string are
falsy, every other string is truthy. -/
def truthyStr : Option String → Bool
  | none => false
  | some s => !(s.isEmpty)

/-- Lines 85-86 of context_aware_wrapper.py, in handle_generic_call:
if not context_id: context_id = "default". -/
def resolveContextId : Option String → String
  | none => "default"
  | some s => if s.isEmpty then "default" else s

/-- Lookup in the context-id registry, modelling a Python dict lookup
(context_agents is a dict from context id to agent object). -/
def findCtx (k : String) : List (String × Nat) → Option Nat
  | [] => none
  | p :: rest => if p.1 = k then some p.2 else findCtx k rest

theorem findCtx_eq_none_iff (k : String) (l : List (String × Nat)) :
    findCtx k l = none ↔ ∀ p ∈ l, p.1 ≠ k := by
  induction l with
  | nil => simp [findCtx]
  | cons p rest ih =>
      by_cases h : p.1 = k
      · simp [findCtx, h]
      · simp [findCtx, h, ih]

theorem findCtx_mem {k : String} {v : Nat} {l : List (String × Nat)} :
    findCtx k l = some v → (k, v) ∈ l := by
  induction l with
  | nil => simp [findCtx]
  | cons p rest ih =>
      by_cases h : p.1 = k
      · simp only [findCtx, h, if_pos]
        intro hv
        cases p
        simp_all

      · simp only [findCtx, h, if_neg, if_false]
        intro hv
        exact List.mem_cons_of_mem _ (ih hv)

/-- Mutable state of GenericAgentWrapper (lines 196-224): the dict
context_agents mapping each context id to the agent object serving it, the
allocator for fresh object identities, and the object id of the original
agent the wrapper was built around (self.agent). -/
structure GenState where
  contextAgents : List (String × Nat)
  nextObj : Nat
  originalId : Nat
deriving DecidableEq, Repr

/-- State of a freshly constructed GenericAgentWrapper: empty registry, the
wrapped original agent is object 0, the next fresh identity is 1. -/
def initGenState : GenState :=
  { contextAgents := [], nextObj := 1, originalId := 0 }

/-- create_agent_copy (lines 174-193): try to construct a new instance of
the original agent class; if the constructor raises any exception, catch it
and fall back to returning the shared original instance. ctorFails says, per
allocation attempt, whether the constructor call raises; the attempt index
is the current allocation counter, which advances on every factory call.
Returns the object id of the produced agent. Note that this function never
propagates a constructor failure to its caller. -/
def create_agent_copy (ctorFails : Nat → Bool) (s : GenState) : Nat :=
  if ctorFails s.nextObj then s.originalId else s.nextObj

/-- handle_generic_call (lines 77-94): resolve the context id, create and
cache an agent instance for it if none is cached, then call the cached
instance with the message and return the call result unchanged. The result
triple is (call result, object id of the invoked agent, state after). When
the call raises, the error is the first component and the inserted registry
entry is kept, exactly as in Python where the exception propagates after the
dict assignment has happened. -/
def handle_generic_call {ρ ε : Type} (ctorFails : Nat → Bool)
    (invoke : Nat → String → Except ε ρ) (s : GenState)
    (message : String) (contextId : Option String) :
    Except ε ρ × Nat × GenState :=
  let cid := resolveContextId contextId
  match findCtx cid s.contextAgents with
  | some aid => (invoke aid message, aid, s)
  | none =>
      let aid := create_agent_copy ctorFails s
      let s' : GenState :=
        { contextAgents := (cid, aid) :: s.contextAgents,
          nextObj := s.nextObj + 1,
          originalId := s.originalId }
      (invoke aid message, aid, s')

/-- handle_direct_call (lines 66-74): ignore the context id apart from
logging and call the shared agent directly with the message. -/
def handle_direct_call {ρ ε : Type} (invoke : String → Except ε ρ)
    (message : String) (contextId : Option String) : Except ε ρ :=
  invoke message

/-- The session-bearing part of an agent with session management: the value
of agent.session_manager.session_id, where none models a Python None. -/
structure SessionState where
  sessionId : Option String
deriving DecidableEq, Repr

/-- handle_session_managed_call (lines 42-63): when the context id is truthy
and the session manager has a session_id attribute, read the prior value,
set the field to the context id, call the agent, and afterwards (in a
finally block, so on both normal return and exception) restore the prior
value only if that prior value was truthy; when the prior value was falsy
the field is left holding the context id. When the context id is falsy or
the attribute is missing, call the agent directly without touching any
session field. The pair returned is (call result, session state after). -/
def handle_session_managed_call {ρ ε : Type}
    (invoke : Option String → String → Except ε ρ) (hasSessionIdAttr : Bool)
    (st : SessionState) (message : String) (contextId : Option String) :
    Except ε ρ × SessionState :=
  if truthyStr contextId then
    if hasSessionIdAttr then
      let originalSession := st.sessionId
      let swapped : SessionState := { sessionId := contextId }
      let result := invoke swapped.sessionId message
      let restored : SessionState :=
        if truthyStr originalSession then { sessionId := originalSession }
        else swapped
      (result, restored)
    else
      (invoke st.sessionId message, st)
  else
    (invoke st.sessionId message, st)

/-- The session value the underlying agent call observes during
handle_session_managed_call: the requested context id when the swap branch
is taken, the untouched prior value otherwise. -/
def sessionSeenByCall (hasSessionIdAttr : Bool) (st : SessionState)
    (contextId : Option String) : Option String :=
  if truthyStr contextId && hasSessionIdAttr then contextId else st.sessionId

/-- Is the first list a prefix of the second, by character equality. -/
def listPrefixOf : List Char → List Char → Bool
  | [], _ => true
  | _ :: _, [] => false
  | a :: as, b :: bs => a == b && listPrefixOf as bs

/-- Does the pattern occur as a contiguous sublist of the second list. -/
def listContainsSub (pat : List Char) : List Char → Bool
  | [] => pat.isEmpty
  | c :: rest => listPrefixOf pat (c :: rest) || listContainsSub pat rest

/-- Lowercase one ASCII character; other characters are unchanged. Python
module names are ASCII, so this captures str.lower on them. -/
def lowerChar (c : Char) : Char :=
  if 65 ≤ c.toNat ∧ c.toNat ≤ 90 then Char.ofNat (c.toNat + 32) else c

/-- Python str.lower for an ASCII module name. -/
def toLowerStr (s : String) : String := String.mk (s.data.map lowerChar)

/-- Python substring test: pat in s. -/
def strContains (s pat : String) : Bool := listContainsSub pat.data s.data

/-- detect_agent_type (lines 97-117): classify the agent by substring tests
on the lowercased module name of its class, in this order: strands, then
google or adk, then langchain, then crewai, else unknown. -/
def detect_agent_type (agentModule : String) : String :=
  let m := toLowerStr agentModule
  if strContains m "strands" then "strands"
  else if strContains m "google" || strContains m "adk" then "adk"
  else if strContains m "langchain" then "langchain"
  else if strContains m "crewai" then "crewai"
  else "unknown"

/-- The attributes of a plain (unwrapped) agent object that the wrapper
module inspects: the module name of its class, whether it has a
session_manager attribute, whether that attribute is not None, and whether
it carries the marker attribute set by a previous upgrade. -/
structure PyAgent where
  agentModule : String
  hasSessionManagerAttr : Bool
  sessionManagerIsNotNone : Bool
  hasContextMarker : Bool
deriving DecidableEq, Repr

/-- The kind of wrapper object built by the module: a base wrapper routing
to handle_session_managed_call, a base wrapper routing to handle_direct_call,
or a GenericAgentWrapper with a per-context registry. -/
inductive WrapperKind
  | sessionManaged
  | directCall
  | generic
deriving DecidableEq, Repr

/-- A Python object as seen by upgrade_agent_for_context_isolation: either a
plain agent or a wrapper object around an inner object. The marker field of
a wrapper is its own instance attribute set at line 263. -/
inductive AgentObj
  | base (a : PyAgent)
  | wrapper (k : WrapperKind) (inner : AgentObj) (marker : Bool)
deriving DecidableEq, Repr

/-- hasattr of the upgrade marker. The wrapper classes delegate unknown
attribute reads to the wrapped agent (getattr fallback, lines 37-39 and
217-219), so a wrapper also reports the marker when its inner object has
it. -/
def objHasContextMarker : AgentObj → Bool
  | .base a => a.hasContextMarker
  | .wrapper _ inner m => m || objHasContextMarker inner

/-- The module name of the class of the object. The wrapper classes are
defined in the wrapper module itself, so a wrapper reports that module, not
the module of the wrapped agent. -/
def objModule : AgentObj → String
  | .base _a => _a.agentModule
  | .wrapper _ _ _ => "any_agent.core.context_aware_wrapper"

/-- The check on lines 134-137: hasattr session_manager and the attribute is
not None. Wrapper instances have no own session_manager attribute, so the
read is delegated to the inner object. -/
def objSessionManagerPresent : AgentObj → Bool
  | .base a => a.hasSessionManagerAttr && a.sessionManagerIsNotNone
  | .wrapper _ inner _ => objSessionManagerPresent inner

/-- create_context_aware_strands_agent (lines 120-159): if the agent has a
non-None session manager, build the session-managed wrapper, else the
direct-call wrapper. The except ImportError arm is unreachable because the
guarded block performs no import, so it is not modelled. A new wrapper
carries no marker attribute of its own yet. -/
def create_context_aware_strands_agent (o : AgentObj) : AgentObj :=
  if objSessionManagerPresent o then .wrapper .sessionManaged o false
  else .wrapper .directCall o false

/-- create_context_aware_generic_agent (lines 162-224): build a
GenericAgentWrapper around the agent. -/
def create_context_aware_generic_agent (o : AgentObj) : AgentObj :=
  .wrapper .generic o false

/-- Line 263: set the marker attribute on the object produced by the chosen
wrapper constructor. -/
def setContextMarker : AgentObj → AgentObj
  | .base a => .base { a with hasContextMarker := true }
  | .wrapper k inner _ => .wrapper k inner true

/-- upgrade_agent_for_context_isolation (lines 227-266): None passes
through; an object already carrying the marker passes through; an agent
whose detected type is adk passes through unwrapped (native context
isolation); a strands agent gets the strands wrapper; everything else gets
the generic wrapper; every newly built wrapper then has the marker set. -/
def upgrade_agent_for_context_isolation : Option AgentObj → Option AgentObj
  | none => none
  | some o =>
    if objHasContextMarker o then some o
    else
      let t := detect_agent_type (objModule o)
      if t = "adk" then some o
      else if t = "strands" then
        some (setContextMarker (create_context_aware_strands_agent o))
      else
        some (setContextMarker (create_context_aware_generic_agent o))

/-- The four wrapping strategies the code can end up applying. The spec
names only the first, second and fourth; directPassthrough is the
no-isolation wrapper used for strands agents without session management. -/
inductive WrapStrategy
  | nativeSession
  | delegatedSession
  | directPassthrough
  | perContext
deriving DecidableEq, Repr

/-- Read the applied strategy off the shape of the object returned by the
upgrade: an unwrapped agent means the runtime handles contexts natively, a
wrapper means the strategy of its kind. -/
def resultStrategy : Option AgentObj → Option WrapStrategy
  | none => none
  | some (.base _) => some .nativeSession
  | some (.wrapper .sessionManaged _ _) => some .delegatedSession
  | some (.wrapper .directCall _ _) => some .directPassthrough
  | some (.wrapper .generic _ _) => some .perContext

/-- The strategy the code applies to a plain agent. -/
def chosenStrategy (a : PyAgent) : Option WrapStrategy :=
  resultStrategy (upgrade_agent_for_context_isolation (some (.base a)))

/-- The three-case classification rule exactly as the specification words
it: native multi-session runtimes (in this codebase, the adk family) get
NativeSession; otherwise an agent exposing a mutable current-session field
gets DelegatedSession; every remaining agent gets PerContext. -/
def specClassifierStrategy (a : PyAgent) : WrapStrategy :=
  if detect_agent_type a.agentModule = "adk" then .nativeSession
  else if a.hasSessionManagerAttr && a.sessionManagerIsNotNone then
    .delegatedSession
  else .perContext

/-- Events of one GenericAgentWrapper call, for reasoning about the scope of
the registry lock. -/
inductive LockEv
  | acquire
  | release
  | createAgent (contextId : String) (agentId : Nat)
  | invokeAgent (contextId : String) (agentId : Nat)
deriving DecidableEq, Repr

/-- Event trace of GenericAgentWrapper call (lines 204-215): the with
self.lock block spans the whole of handle_generic_call, so the acquire event
comes first, then optionally the factory construction, then the agent
invocation, and the release event only after the invocation returns. -/
def genericCallTrace (ctorFails : Nat → Bool) (s : GenState)
    (contextId : Option String) : List LockEv :=
  let cid := resolveContextId contextId
  match findCtx cid s.contextAgents with
  | some aid => [.acquire, .invokeAgent cid aid, .release]
  | none =>
      let aid := create_agent_copy ctorFails s
      [.acquire, .createAgent cid aid, .invokeAgent cid aid, .release]

/-- The event at position i of a trace. -/
def evAt : List LockEv → Nat → Option LockEv
  | [], _ => none
  | e :: _, 0 => some e
  | _ :: tr, n + 1 => evAt tr n

/-- One step of the lock-depth computation. -/
def lockDepthStep (d : Nat) : LockEv → Nat
  | .acquire => d + 1
  | .release => d - 1
  | _ => d

/-- Number of nested lock acquisitions still held after the given events. -/
def lockDepthAfter (tr : List LockEv) : Nat :=
  tr.foldl lockDepthStep 0

/-- The state after a generic-wrapper dispatch (projection of
handle_generic_call). -/
def dispatchGenState {ρ ε : Type} (ctorFails : Nat → Bool)
    (invoke : Nat → String → Except ε ρ) (s : GenState)
    (message : String) (contextId : Option String) : GenState :=
  (handle_generic_call ctorFails invoke s message contextId).2.2

/-- Run a list of dispatches (message, context id) through the generic
wrapper, threading the state. -/
def runGenDispatches {ρ ε : Type} (ctorFails : Nat → Bool)
    (invoke : Nat → String → Except ε ρ) :
    List (String × Option String) → GenState → GenState
  | [], s => s
  | c :: rest, s =>
      runGenDispatches ctorFails invoke rest
        (dispatchGenState ctorFails invoke s c.1 c.2)

/-- Registry invariant of the generic wrapper: every cached object id is
below the allocation counter, as is the original agent id, and the cached
entries have pairwise distinct context ids and pairwise distinct object
ids. -/
def GenInv (s : GenState) : Prop :=
  s.originalId < s.nextObj ∧
  (∀ p ∈ s.contextAgents, p.2 < s.nextObj) ∧
  s.contextAgents.Pairwise (fun p q => p.1 ≠ q.1 ∧ p.2 ≠ q.2)

/-- Concrete agent call used in witnesses: return the object id of the
invoked agent, never raise. -/
def idInvoke : Nat → String → Except Nat Nat :=
  fun aid _ => Except.ok aid

/-- Concrete session-reading agent call used in counterexamples: return 1
when the session field visible during the call is the string default, else
0. -/
def sessionProbe : Option String → String → Except Nat Nat :=
  fun sess _ => Except.ok (if sess = some "default" then 1 else 0)

/-- Concrete session-managed agent call used in witnesses: always return
0. -/
def smOkInvoke : Option String → String → Except Nat Nat :=
  fun _ _ => Except.ok 0

/-- Modelled from the spec: the Context Isolation Manager registry. The
class ContextManager in any_agent/core/context_manager.py is code of this
repository that is not under src (only its tests are present), so its
registry is modelled from spec section 3: a mapping from context id to the
record owning the bound Agent Handle, plus the allocator for fresh handle
identities used by the factory. -/
structure MgrState where
  contexts : List (String × Nat)
  nextObj : Nat
deriving DecidableEq, Repr

/-- Modelled from the spec: get_or_create dispatch bookkeeping of the
missing ContextManager, per spec sections 3 and 4.2: resolve an absent
context id to default, reuse the bound handle of an existing record, and
otherwise invoke the factory for a fresh handle and insert a record. -/
def getOrCreateCtx (s : MgrState) (cid : Option String) : Nat × MgrState :=
  let c := resolveContextId cid
  match findCtx c s.contexts with
  | some aid => (aid, s)
  | none =>
      (s.nextObj,
        { contexts := (c, s.nextObj) :: s.contexts, nextObj := s.nextObj + 1 })

/-- Modelled from the spec: cleanup of the missing ContextManager, per spec
section 4.2: remove the record for the context id if present and return
true, return false if none existed (not an error). -/
def cleanupCtx (x : String) (s : MgrState) : Bool × MgrState :=
  match findCtx x s.contexts with
  | some _ =>
      (true, { s with contexts := s.contexts.filter (fun p => p.1 != x) })
  | none => (false, s)

theorem findCtx_filter_self (x : String) (l : List (String × Nat)) :
    findCtx x (l.filter (fun p => p.1 != x)) = none := by
  induction l with
  | nil => rfl
  | cons p rest ih =>
      by_cases h : p.1 = x
      · simp [List.filter_cons, h, ih]
      · simp [List.filter_cons, h, findCtx, ih]

theorem filter_eq_self_of_findCtx_none {x : String} {l : List (String × Nat)}
    (h : findCtx x l = none) : l.filter (fun p => p.1 != x) = l := by
  induction l with
  | nil => rfl
  | cons p rest ih =>
      rw [findCtx_eq_none_iff] at h
      have hp : p.1 ≠ x := h p (List.mem_cons_self p rest)
      have hrest : findCtx x rest = none := by
        rw [findCtx_eq_none_iff]
        intro q hq
        exact h q (List.mem_cons_of_mem p hq)
      simp [List.filter_cons, hp, ih hrest]

theorem pairwise_distinct_values {l : List (String × Nat)}
    (hp : l.Pairwise (fun p q => p.1 ≠ q.1 ∧ p.2 ≠ q.2))
    {p q : String × Nat} (hpl : p ∈ l) (hql : q ∈ l) (hne : p.1 ≠ q.1) :
    p.2 ≠ q.2 := by
  induction l with
  | nil => cases hpl
  | cons r rest ih =>
      rcases List.pairwise_cons.mp hp with ⟨hr, hrest⟩
      rcases List.mem_cons.mp hpl with hpr | hptail
      · rcases List.mem_cons.mp hql with hqr | hqtail
        · subst hpr; subst hqr; exact absurd rfl hne
        · subst hpr; exact (hr q hqtail).2
      · rcases List.mem_cons.mp hql with hqr | hqtail
        · subst hqr; exact fun e => (hr p hptail).2 e.symm
        · exact ih hrest hptail hqtail

/-- Claim C4: under the PerContext strategy, dispatching twice with the same
context id, with no cleanup in between, invokes the identical agent object
both times: the object used by the second dispatch is the one used by the
first. -/
theorem C4_perContext_reuse {ρ ε : Type} (ctorFails : Nat → Bool)
    (invoke : Nat → String → Except ε ρ) (s : GenState)
    (m1 m2 : String) (cid : Option String) :
    (handle_generic_call ctorFails invoke
        (handle_generic_call ctorFails invoke s m1 cid).2.2 m2 cid).2.1 =
      (handle_generic_call ctorFails invoke s m1 cid).2.1 := by
  unfold handle_generic_call
  cases h : findCtx (resolveContextId cid) s.contextAgents with
  | some aid => simp [h]
  | none => simp [h, findCtx]

/-- Claim C5 counterexample: under the DelegatedSession strategy, dispatching
with an absent context id is not equivalent to dispatching with the context
id default. With the session field initially None, the absent-id dispatch
calls the agent under session None and leaves the field None, while the
default-id dispatch calls the agent under session default (observably: the
probe agent returns 1 instead of 0) and leaves the field holding default. -/
theorem C5_counterexample :
    (handle_session_managed_call sessionProbe true ⟨none⟩ "hi" none).1 =
        Except.ok 0
    ∧ (handle_session_managed_call sessionProbe true ⟨none⟩ "hi"
          (some "default")).1 = Except.ok 1
    ∧ (handle_session_managed_call sessionProbe true ⟨none⟩ "hi" none).2 =
        (⟨none⟩ : SessionState)
    ∧ (handle_session_managed_call sessionProbe true ⟨none⟩ "hi"
          (some "default")).2 = ⟨some "default"⟩ :=
  ⟨rfl, rfl, rfl, rfl⟩

/-- Claim C5 amended: the absent-or-empty-equals-default equivalence holds
for the PerContext generic handler (result, invoked object, and state all
agree) and trivially for the direct-call handler, but not for the
DelegatedSession handler, which skips the session swap entirely on a falsy
context id (see the counterexample). -/
theorem C5_amended_default_equiv {ρ ε : Type} (ctorFails : Nat → Bool)
    (invoke : Nat → String → Except ε ρ) (dinvoke : String → Except ε ρ)
    (s : GenState) (m : String) :
    handle_generic_call ctorFails invoke s m none =
        handle_generic_call ctorFails invoke s m (some "default")
    ∧ handle_generic_call ctorFails invoke s m (some "") =
        handle_generic_call ctorFails invoke s m (some "default")
    ∧ handle_direct_call dinvoke m none =
        handle_direct_call dinvoke m (some "default") :=
  ⟨rfl, rfl, rfl⟩

/-- Claim C8: for every dispatch under every strategy, the value returned to
the caller is exactly the value returned by the underlying agent call,
whether that value is a normal result or a propagated failure: the generic
handler returns precisely the call on the cached per-context object, the
session-managed handler returns precisely the call made under the visible
session value, and the direct handler returns precisely the direct call. -/
theorem C8_result_propagation {ρ ε : Type} (ctorFails : Nat → Bool)
    (ginvoke : Nat → String → Except ε ρ)
    (sinvoke : Option String → String → Except ε ρ)
    (dinvoke : String → Except ε ρ) (hasAttr : Bool)
    (sst : SessionState) (gs : GenState) (m : String) (cid : Option String) :
    (handle_generic_call ctorFails ginvoke gs m cid).1 =
        ginvoke (handle_generic_call ctorFails ginvoke gs m cid).2.1 m
    ∧ (handle_session_managed_call sinvoke hasAttr sst m cid).1 =
        sinvoke (sessionSeenByCall hasAttr sst cid) m
    ∧ handle_direct_call dinvoke m cid = dinvoke m := by
  refine ⟨?_, ?_, rfl⟩
  · unfold handle_generic_call
    cases h : findCtx (resolveContextId cid) gs.contextAgents <;> simp [h]
  · unfold handle_session_managed_call sessionSeenByCall
    cases hc : truthyStr cid <;> cases hasAttr <;> simp

theorem genInv_dispatch {ρ ε : Type} (invoke : Nat → String → Except ε ρ)
    (s : GenState) (m : String) (cid : Option String) (hInv : GenInv s) :
    GenInv (dispatchGenState (fun _ => false) invoke s m cid) := by
  obtain ⟨h0, h1, h2⟩ := hInv
  unfold dispatchGenState handle_generic_call
  cases hf : findCtx (resolveContextId cid) s.contextAgents with
  | some aid =>
      simp only [hf]
      exact ⟨h0, h1, h2⟩
  | none =>
      simp only [hf, create_agent_copy, if_false, Bool.false_eq_true]
      refine ⟨Nat.lt_succ_of_lt h0, ?_, ?_⟩
      · intro p hp
        rcases List.mem_cons.mp hp with hhead | htail
        · subst hhead; exact Nat.lt_succ_self _
        · exact Nat.lt_succ_of_lt (h1 p htail)
      · refine List.pairwise_cons.mpr ⟨?_, h2⟩
        intro q hq
        rw [findCtx_eq_none_iff] at hf
        exact ⟨fun e => hf q hq e.symm, fun e => absurd e.symm (Nat.ne_of_lt (h1 q hq))⟩

theorem genInv_run {ρ ε : Type} (invoke : Nat → String → Except ε ρ)
    (calls : List (String × Option String)) :
    ∀ s : GenState, GenInv s →
      GenInv (runGenDispatches (fun _ => false) invoke calls s) := by
  induction calls with
  | nil => intro s h; exact h
  | cons c rest ih =>
      intro s h
      exact ih _ (genInv_dispatch invoke s c.1 c.2 h)

theorem genInv_init : GenInv initGenState :=
  ⟨Nat.zero_lt_one, fun p hp => absurd hp (List.not_mem_nil p),
    List.Pairwise.nil⟩

/-- Claim C1 counterexample: the claim as stated is false on the code. When
the agent-copy constructor raises, create_agent_copy falls back to the
shared original instance, so with an always-failing constructor the two
distinct context ids a and b, each dispatched once through the same wrapper,
are both cached with the very same object (the original agent, object 0). -/
theorem C1_counterexample :
    findCtx "a"
        ((handle_generic_call (fun _ => true) idInvoke
            (handle_generic_call (fun _ => true) idInvoke initGenState
              "m1" (some "a")).2.2
            "m2" (some "b")).2.2).contextAgents = some 0
    ∧ findCtx "b"
        ((handle_generic_call (fun _ => true) idInvoke
            (handle_generic_call (fun _ => true) idInvoke initGenState
              "m1" (some "a")).2.2
            "m2" (some "b")).2.2).contextAgents = some 0 := by
  exact ⟨by decide, by decide⟩

/-- Claim C1 amended: under the PerContext strategy, provided the agent-copy
constructor succeeds on every construction (no fallback to the shared
original instance), any two distinct context ids that appear in the registry
after any sequence of dispatches are cached with distinct agent objects. -/
theorem C1_perContext_isolation {ρ ε : Type}
    (invoke : Nat → String → Except ε ρ)
    (calls : List (String × Option String)) (a b : String) (x y : Nat)
    (hab : a ≠ b)
    (hx : findCtx a (runGenDispatches (fun _ => false) invoke calls
        initGenState).contextAgents = some x)
    (hy : findCtx b (runGenDispatches (fun _ => false) invoke calls
        initGenState).contextAgents = some y) :
    x ≠ y := by
  have hInv := genInv_run invoke calls initGenState genInv_init
  exact pairwise_distinct_values hInv.2.2 (findCtx_mem hx) (findCtx_mem hy) hab

/-- Claim C1 witness: two dispatches with distinct context ids and a
never-failing constructor cache the distinct objects 1 and 2. -/
theorem C1_witness :
    findCtx "a" (runGenDispatches (fun _ => false) idInvoke
        [("m", some "a"), ("n", some "b")] initGenState).contextAgents = some 1
    ∧ findCtx "b" (runGenDispatches (fun _ => false) idInvoke
        [("m", some "a"), ("n", some "b")] initGenState).contextAgents = some 2
    ∧ (1 : Nat) ≠ 2 :=
  ⟨by decide, by decide,
    C1_perContext_isolation idInvoke [("m", some "a"), ("n", some "b")]
      "a" "b" 1 2 (by decide) (by decide) (by decide)⟩

/-- Claim C2 counterexample: the claim as stated is false on the code. With
the shared session field initially None (a falsy prior value) and a truthy
context id, the guarded restore in the finally block is skipped, so after
the dispatch the session field holds the dispatched context id rather than
the value it held before the dispatch began. -/
theorem C2_counterexample :
    (handle_session_managed_call smOkInvoke true ⟨none⟩ "hello"
        (some "ctx1")).2 = ⟨some "ctx1"⟩
    ∧ (⟨some "ctx1"⟩ : SessionState) ≠ ⟨none⟩ :=
  ⟨rfl, by decide⟩

/-- Claim C2 amended: under the DelegatedSession strategy, after any
dispatch (normal return or raised failure alike, since the restore sits in a
finally block), the shared session field holds exactly its prior value,
provided that prior value was truthy (neither None nor empty); when the
prior value was falsy the field is left holding the dispatched context
id. -/
theorem C2_session_restore {ρ ε : Type}
    (invoke : Option String → String → Except ε ρ) (hasAttr : Bool)
    (st : SessionState) (m : String) (cid : Option String)
    (h : truthyStr st.sessionId = true) :
    (handle_session_managed_call invoke hasAttr st m cid).2 = st := by
  unfold handle_session_managed_call
  cases hc : truthyStr cid <;> cases hasAttr <;> simp [h]

/-- Claim C2 witness: with a truthy prior session value the field is
restored exactly. -/
theorem C2_witness :
    truthyStr (some "orig") = true
    ∧ (handle_session_managed_call smOkInvoke true ⟨some "orig"⟩ "hello"
        (some "ctx1")).2 = ⟨some "orig"⟩ :=
  ⟨by decide,
    C2_session_restore smOkInvoke true ⟨some "orig"⟩ "hello" (some "ctx1")
      (by decide)⟩

/-- Claim C7 counterexample: the claim as stated is false on the code. When
agent construction fails during a dispatch for the previously unseen context
id c1, the factory catches the failure internally: the dispatch returns the
normal result of calling the shared original agent (object 0) instead of
propagating an error, a registry record for c1 IS inserted (bound to the
shared original), and a later dispatch for c1, even with a now-succeeding
constructor, reuses that record instead of retrying construction. -/
theorem C7_counterexample :
    (handle_generic_call (fun _ => true) idInvoke initGenState "hello"
        (some "c1")).1 = Except.ok 0
    ∧ findCtx "c1" (handle_generic_call (fun _ => true) idInvoke initGenState
        "hello" (some "c1")).2.2.contextAgents = some 0
    ∧ (handle_generic_call (fun _ => false) idInvoke
        (handle_generic_call (fun _ => true) idInvoke initGenState "hello"
          (some "c1")).2.2 "again" (some "c1")).2.1 = 0 :=
  ⟨rfl, by decide, by decide⟩

/-- Claim C7 amended: if agent construction fails during a dispatch for a
previously unseen context id, the error is caught inside the factory, which
returns the shared original agent: the dispatch invokes the shared original
and returns that call result (no construction error propagates), and a
record binding the context id to the shared original is inserted into the
registry, so later dispatches for that id reuse it without retrying
construction. -/
theorem C7_factory_fallback {ρ ε : Type} (ctorFails : Nat → Bool)
    (invoke : Nat → String → Except ε ρ) (s : GenState) (m : String)
    (cid : Option String)
    (hfail : ctorFails s.nextObj = true)
    (hnew : findCtx (resolveContextId cid) s.contextAgents = none) :
    (handle_generic_call ctorFails invoke s m cid).1 = invoke s.originalId m
    ∧ (handle_generic_call ctorFails invoke s m cid).2.1 = s.originalId
    ∧ findCtx (resolveContextId cid)
        (handle_generic_call ctorFails invoke s m cid).2.2.contextAgents =
          some s.originalId := by
  unfold handle_generic_call
  simp [hnew, create_agent_copy, hfail, findCtx]

/-- Claim C7 witness: a failing construction for the unseen context id c2
yields the shared original (object 0) as the invoked agent and caches it. -/
theorem C7_witness :
    (handle_generic_call (fun _ => true) idInvoke initGenState "x"
        (some "c2")).1 = idInvoke initGenState.originalId "x"
    ∧ (handle_generic_call (fun _ => true) idInvoke initGenState "x"
        (some "c2")).2.1 = initGenState.originalId
    ∧ findCtx (resolveContextId (some "c2"))
        (handle_generic_call (fun _ => true) idInvoke initGenState "x"
          (some "c2")).2.2.contextAgents = some initGenState.originalId :=
  C7_factory_fallback (fun _ => true) idInvoke initGenState "x" (some "c2")
    rfl rfl

/-- Claim C3 counterexample: the claim as stated is false on the code. A
langchain agent exposing a mutable non-None session manager is given the
PerContext strategy by the code, while the three-case rule of the
specification demands DelegatedSession for it; and a strands agent without a
session manager is given a fourth, direct-passthrough strategy that is none
of the three the rule allows. -/
theorem C3_counterexample :
    chosenStrategy ⟨"langchain.agents.agent", true, true, false⟩ =
        some WrapStrategy.perContext
    ∧ specClassifierStrategy ⟨"langchain.agents.agent", true, true, false⟩ =
        WrapStrategy.delegatedSession
    ∧ chosenStrategy ⟨"strands.agent", false, false, false⟩ =
        some WrapStrategy.directPassthrough := by
  exact ⟨by decide, by decide, by decide⟩

/-- Claim C3 amended: the classifier maps every not-yet-marked agent by a
four-case rule keyed on the detected framework family, not on the presence
of a session field: NativeSession exactly for the adk family; for the
strands family, DelegatedSession when a non-None session manager is exposed
and a direct-passthrough (no isolation) wrapper otherwise; and PerContext
for every other family, even one exposing a mutable session field. -/
theorem C3_classifier_rule (a : PyAgent) (hm : a.hasContextMarker = false) :
    chosenStrategy a = some (
      if detect_agent_type a.agentModule = "adk" then
        WrapStrategy.nativeSession
      else if detect_agent_type a.agentModule = "strands" then
        (if a.hasSessionManagerAttr && a.sessionManagerIsNotNone then
          WrapStrategy.delegatedSession
        else WrapStrategy.directPassthrough)
      else WrapStrategy.perContext) := by
  unfold chosenStrategy upgrade_agent_for_context_isolation
  simp only [objHasContextMarker, hm, objModule, Bool.false_eq_true,
    if_false]
  by_cases h1 : detect_agent_type a.agentModule = "adk"
  · simp [h1, resultStrategy]
  · by_cases h2 : detect_agent_type a.agentModule = "strands"
    · by_cases h3 : (a.hasSessionManagerAttr && a.sessionManagerIsNotNone) = true
      · simp [h1, h2, h3, create_context_aware_strands_agent,
          objSessionManagerPresent, setContextMarker, resultStrategy]
      · simp [h1, h2, h3, create_context_aware_strands_agent,
          objSessionManagerPresent, setContextMarker, resultStrategy]
    · simp [h1, h2, create_context_aware_generic_agent, setContextMarker,
        resultStrategy]

/-- Claim C3 witness: a strands agent with a non-None session manager is
classified DelegatedSession by the characterization. -/
theorem C3_witness :
    chosenStrategy ⟨"strands.agent", true, true, false⟩ =
      some WrapStrategy.delegatedSession := by
  rw [C3_classifier_rule ⟨"strands.agent", true, true, false⟩ rfl]
  decide

/-- Claim C6 counterexample: the claim as stated is false on the code. In
the trace of a GenericAgentWrapper call the agent invocation event occurs at
a position where the registry lock is still held (depth 1, not 0): the with
self.lock block spans the whole handler, invocation included. -/
theorem C6_counterexample :
    evAt (genericCallTrace (fun _ => false) initGenState (some "c1")) 2 =
        some (LockEv.invokeAgent "c1" 1)
    ∧ lockDepthAfter
        ((genericCallTrace (fun _ => false) initGenState (some "c1")).take 2)
        ≠ 0 := by
  exact ⟨by decide, by decide⟩

/-- Claim C6 amended: in every GenericAgentWrapper call trace, every agent
invocation event occurs while the registry lock is held, so two concurrent
dispatches, even on different context ids, are serialized by the registry
lock for the whole duration of the handle invocation. -/
theorem C6_invoke_inside_lock (ctorFails : Nat → Bool) (s : GenState)
    (cid : Option String) (i : Nat) (c : String) (aid : Nat)
    (h : evAt (genericCallTrace ctorFails s cid) i =
        some (LockEv.invokeAgent c aid)) :
    0 < lockDepthAfter ((genericCallTrace ctorFails s cid).take i) := by
  unfold genericCallTrace at h ⊢
  cases hf : findCtx (resolveContextId cid) s.contextAgents with
  | some a =>
      simp only [hf] at h ⊢
      rcases i with _ | _ | _ | n
      · simp [evAt] at h
      · exact Nat.one_pos
      · simp [evAt] at h
      · simp [evAt] at h
  | none =>
      simp only [hf] at h ⊢
      rcases i with _ | _ | _ | _ | n
      · simp [evAt] at h
      · exact Nat.one_pos
      · exact Nat.one_pos
      · simp [evAt] at h
      · simp [evAt] at h

/-- Claim C6 witness: position 1 of a concrete trace is the invocation event
of a cached agent and the lock depth before it is positive. -/
theorem C6_witness :
    evAt (genericCallTrace (fun _ => false)
        { contextAgents := [("c1", 1)], nextObj := 2, originalId := 0 }
        (some "c1")) 1 = some (LockEv.invokeAgent "c1" 1)
    ∧ 0 < lockDepthAfter ((genericCallTrace (fun _ => false)
        { contextAgents := [("c1", 1)], nextObj := 2, originalId := 0 }
        (some "c1")).take 1) :=
  ⟨by decide,
    C6_invoke_inside_lock (fun _ => false)
      { contextAgents := [("c1", 1)], nextObj := 2, originalId := 0 }
      (some "c1") 1 "c1" 1 (by decide)⟩

/-- Claim C9 (spec-modelled, the ContextManager source is not under src):
cleanup returns true exactly when a record existed, removing it, and false
when none existed, changing nothing; cleanup twice in a row returns true
then false; and a dispatch for the cleaned context id afterwards binds a
brand-new handle distinct from the pre-cleanup one. -/
theorem C9_cleanup_semantics :
    (∀ (s : MgrState) (x : String),
        ((cleanupCtx x s).1 = true ↔ findCtx x s.contexts ≠ none)
        ∧ findCtx x (cleanupCtx x s).2.contexts = none
        ∧ ((cleanupCtx x s).1 = false → (cleanupCtx x s).2 = s))
    ∧ (∀ (s : MgrState) (x : String) (h : Nat),
        (∀ p ∈ s.contexts, p.2 < s.nextObj) → x.isEmpty = false →
        findCtx x s.contexts = some h →
        (cleanupCtx x s).1 = true
        ∧ (cleanupCtx x (cleanupCtx x s).2).1 = false
        ∧ (getOrCreateCtx (cleanupCtx x s).2 (some x)).1 ≠ h) := by
  constructor
  · intro s x
    refine ⟨?_, ?_, ?_⟩
    · unfold cleanupCtx
      cases hf : findCtx x s.contexts <;> simp [hf]
    · unfold cleanupCtx
      cases hf : findCtx x s.contexts <;> simp [hf, findCtx_filter_self]
    · unfold cleanupCtx
      cases hf : findCtx x s.contexts <;> simp [hf]
  · intro s x h hinv hx hf
    have hmem := findCtx_mem hf
    have hlt : h < s.nextObj := hinv (x, h) hmem
    refine ⟨?_, ?_, ?_⟩
    · unfold cleanupCtx
      simp [hf]
    · unfold cleanupCtx
      simp [hf, findCtx_filter_self]
    · unfold cleanupCtx getOrCreateCtx
      simp [hf, resolveContextId, hx, findCtx_filter_self]
      exact Nat.ne_of_gt hlt

/-- Claim C9 witness: on a registry holding one record for c bound to
handle 0, cleanup returns true, a second cleanup returns false, and the next
dispatch for c binds a handle distinct from 0. -/
theorem C9_witness :
    (cleanupCtx "c" ⟨[("c", 0)], 1⟩).1 = true
    ∧ (cleanupCtx "c" (cleanupCtx "c" ⟨[("c", 0)], 1⟩).2).1 = false
    ∧ (getOrCreateCtx (cleanupCtx "c" ⟨[("c", 0)], 1⟩).2 (some "c")).1 ≠ 0 :=
  C9_cleanup_semantics.2 ⟨[("c", 0)], 1⟩ "c" 0 (by decide) (by decide)
    (by decide)

/-- Claim C10: the public upgrade operation is idempotent: None passes
through, any object already carrying the context-isolation marker is
returned as-is, and applying the upgrade to its own result always returns
that result unchanged, so an agent is never double-wrapped. -/
theorem C10_upgrade_idempotent :
    upgrade_agent_for_context_isolation none = none
    ∧ (∀ o : AgentObj, objHasContextMarker o = true →
        upgrade_agent_for_context_isolation (some o) = some o)
    ∧ (∀ x : Option AgentObj,
        upgrade_agent_for_context_isolation
            (upgrade_agent_for_context_isolation x) =
          upgrade_agent_for_context_isolation x) := by
  refine ⟨rfl, ?_, ?_⟩
  · intro o hm
    simp [upgrade_agent_for_context_isolation, hm]
  · intro x
    match x with
    | none => rfl
    | some o =>
        by_cases hm : objHasContextMarker o = true
        · simp [upgrade_agent_for_context_isolation, hm]
        · have hm' : objHasContextMarker o = false := by
            simpa using hm
          by_cases h1 : detect_agent_type (objModule o) = "adk"
          · simp [upgrade_agent_for_context_isolation, hm', h1]
          · by_cases h2 : detect_agent_type (objModule o) = "strands"
            · by_cases h3 : objSessionManagerPresent o = true <;>
                simp [upgrade_agent_for_context_isolation, hm', h1, h2,
                  create_context_aware_strands_agent, h3, setContextMarker,
                  objHasContextMarker]
            · simp [upgrade_agent_for_context_isolation, hm', h1, h2,
                create_context_aware_generic_agent, setContextMarker,
                objHasContextMarker]

/-- Claim C10 witness: an agent already carrying the marker passes through
the upgrade unchanged. -/
theorem C10_witness :
    upgrade_agent_for_context_isolation
        (some (AgentObj.base ⟨"custom.mod", false, false, true⟩)) =
      some (AgentObj.base ⟨"custom.mod", false, false, true⟩) :=
  C10_upgrade_idempotent.2.1
    (AgentObj.base ⟨"custom.mod", false, false, true⟩) rfl
